import Mathlib

/-!
Verification of the ScrollArea2 scroll-synchronization engine
(packages/react/scroll-area, file `src/unnamed/part_000`).

Numbers are modelled as rationals (`ℚ`): every arithmetic operation the
embedded code performs is exact linear arithmetic (+, -, *, /), so `ℚ`
is a faithful stand-in for the JavaScript number type on the inputs the
claims range over.  Division by zero, which in JavaScript produces a
non-finite value (Infinity or NaN), is tracked explicitly via `Option`:
`none` stands for a non-finite result.
-/

/-- `Sizes.scrollbar` record from the source (lines 27-31):
track pixel size and its start/end padding. -/
structure ScrollbarSizes where
  size : ℚ
  paddingStart : ℚ
  paddingEnd : ℚ
  deriving DecidableEq

/-- The `Sizes` record from the source (lines 23-32). -/
structure Sizes where
  thumb : ℚ
  content : ℚ
  viewport : ℚ
  scrollbar : ScrollbarSizes
  deriving DecidableEq

/-- The `Omit<Sizes, 'thumb'>` shape the axis components pass around
(lines 356, 365): `Sizes` without the thumb field. -/
structure SizesNoThumb where
  content : ℚ
  viewport : ℚ
  scrollbar : ScrollbarSizes
  deriving DecidableEq

/-- Modelled from the spec: JavaScript division, which never throws but
yields a non-finite value (Infinity or NaN) when the divisor is zero;
`none` represents that non-finite outcome. -/
def jsDiv (a b : ℚ) : Option ℚ :=
  if b = 0 then none else some (a / b)

/-- Modelled from the spec: the shared linear-interpolation primitive
`linearScale` (provided by the `@radix-ui/number` package of this
repository, whose source is not under src/), per spec section 4.1: it maps
the domain `[dmin, dmax]` onto the codomain `[cmin, cmax]`, and a
degenerate domain maps everything to the single codomain point `cmin`
(which is 0 at both call sites), so that no division by zero occurs. -/
def linearScale (dmin dmax cmin cmax value : ℚ) : Option ℚ :=
  if dmin = dmax then some cmin
  else (jsDiv (cmax - cmin) (dmax - dmin)).map fun ratio => cmin + ratio * (value - dmin)

/-- `getThumbSizePx` from the source (lines 806-809). -/
def getThumbSizePx (ratio : ℚ) (scrollbar : ScrollbarSizes) : ℚ :=
  let scrollbarPadding := scrollbar.paddingStart + scrollbar.paddingEnd
  (scrollbar.size - scrollbarPadding) * ratio

/-- `interpolateScrollPositionFromPointer` from the source (lines 811-822). -/
def interpolateScrollPositionFromPointer (pointerPos pointerOffset : ℚ) (sizes : Sizes) :
    Option ℚ :=
  let thumbOffsetFromEnd := sizes.thumb - pointerOffset
  let minPointerPos := sizes.scrollbar.paddingStart + pointerOffset
  let maxPointerPos := sizes.scrollbar.size - sizes.scrollbar.paddingEnd - thumbOffsetFromEnd
  let maxScrollPos := sizes.content - sizes.viewport
  linearScale minPointerPos maxPointerPos 0 maxScrollPos pointerPos

/-- `interpolateThumbOffsetFromScroll` from the source (lines 824-831). -/
def interpolateThumbOffsetFromScroll (scrollPos : ℚ) (sizes : Sizes) : Option ℚ :=
  let scrollbarPadding := sizes.scrollbar.paddingStart + sizes.scrollbar.paddingEnd
  let scrollbar := sizes.scrollbar.size - scrollbarPadding
  let maxScrollPos := sizes.content - sizes.viewport
  let maxThumbPos := scrollbar - sizes.thumb
  linearScale 0 maxScrollPos 0 maxThumbPos scrollPos

/-- `getScrollPositionFromPointer` from the source (lines 356-363).
`pointerOffsetRef` is the value of the component's `pointerOffsetRef.current`
mutable cell; the source picks the pointer offset with JavaScript truthiness
(`pointerOffsetRef.current || thumbSizePx / 2`), so the half-thumb fallback
applies exactly when the recorded value is 0. -/
def getScrollPositionFromPointer (thumbRatio pointerOffsetRef pointerPos : ℚ)
    (sizes : SizesNoThumb) : Option ℚ :=
  let thumbSizePx := getThumbSizePx thumbRatio sizes.scrollbar
  let pointerOffset := if pointerOffsetRef = 0 then thumbSizePx / 2 else pointerOffsetRef
  interpolateScrollPositionFromPointer pointerPos pointerOffset
    { thumb := thumbSizePx, content := sizes.content, viewport := sizes.viewport,
      scrollbar := sizes.scrollbar }

/-- The value `onThumbPointerUp` stores into `pointerOffsetRef.current`
(source lines 387 and 413). -/
def onThumbPointerUpRef : ℚ := 0

/-- `preventPageScrollOnWheel` from the source (lines 373-376): whether
`event.preventDefault()` is called. -/
def preventPageScrollOnWheel (scrollPos maxScrollPos : ℚ) : Bool :=
  decide (0 < scrollPos) && decide (scrollPos < maxScrollPos)

/-- Observable outcome of one wheel event over the scrollbar: whether the
default page scroll was suppressed, and the scroll position written to the
native scroll offset. -/
structure WheelOutcome where
  prevented : Bool
  newScroll : ℚ
  deriving DecidableEq

/-- The `onWheelScroll` path of an axis scrollbar (source lines 523-529 for
the horizontal axis, 613-619 for the vertical axis, feeding lines 396-399 /
422-425): `scrollPos = currentScroll + delta`,
`maxScrollPos = content - viewport`; `preventPageScrollOnWheel` decides
suppression and `scrollPos` is written to the native offset unconditionally. -/
def onWheelScroll (currentScroll delta content viewport : ℚ) : WheelOutcome :=
  let scrollPos := currentScroll + delta
  let maxScrollPos := content - viewport
  { prevented := preventPageScrollOnWheel scrollPos maxScrollPos, newScroll := scrollPos }

/-- The ratio recomputation performed in each axis's layout effect
(source lines 480-487 for the horizontal axis, 569-576 for the vertical
axis): `thumbRatio = trackPixelSize / contentSize`, a JavaScript division
with no guard against a zero content size. -/
def recomputeThumbRatio (trackPixelSize contentSize : ℚ) : Option ℚ :=
  jsDiv trackPixelSize contentSize

/-- States of the activity state machine (source lines 269-287). -/
inductive ActivityState
  | idle
  | hidden
  | scrolling
  | interacting
  deriving DecidableEq

/-- Events sent to the activity state machine (source lines 269-325). -/
inductive ActivityEvent
  | hide
  | scroll
  | scrollEnd
  | scrollbarPointerEnter
  | scrollbarPointerLeave
  deriving DecidableEq

/-- The transition table passed to `useStateMachine` by
`ScrollAreaScrollbarScroll` (source lines 269-287); `none` marks a
state/event pair with no listed transition. -/
def scrollMachineTable (s : ActivityState) (e : ActivityEvent) : Option ActivityState :=
  match s, e with
  | .idle, .hide => some .hidden
  | .idle, .scroll => some .scrolling
  | .idle, .scrollbarPointerEnter => some .interacting
  | .hidden, .scroll => some .scrolling
  | .hidden, .scrollbarPointerEnter => some .interacting
  | .scrolling, .scrollEnd => some .idle
  | .scrolling, .scrollbarPointerEnter => some .interacting
  | .interacting, .scroll => some .interacting
  | .interacting, .scrollbarPointerLeave => some .idle
  | _, _ => none

/-- Modelled from the spec: the `useStateMachine` step (in
`./useStateMachine`, whose source is not under src/): an event listed in
the table for the current state moves to the listed state, and an event
with no listed transition leaves the state unchanged (spec section 4.4
lists only the effective transitions). -/
def scrollMachineNext (s : ActivityState) (e : ActivityEvent) : ActivityState :=
  (scrollMachineTable s e).getD s

/-- The initial state passed to `useStateMachine` (source line 269). -/
def scrollMachineInitial : ActivityState := .hidden

/-- The renderer chosen by `ScrollAreaScrollbar` for a given policy tag. -/
inductive ScrollbarRender
  | visible
  | auto
  | hover
  | scroll
  deriving DecidableEq

/-- The `type = 'hover'` destructuring default of `ScrollArea`
(source line 77): an absent prop resolves to `"hover"`. -/
def resolveScrollAreaType (t : Option String) : String :=
  t.getD "hover"

/-- The policy dispatch of `ScrollAreaScrollbar` (source lines 190-198):
each recognized tag picks its renderer, and any other value renders
nothing (`null`). -/
def dispatchScrollbar (t : String) : Option ScrollbarRender :=
  if t = "always" then some ScrollbarRender.visible
  else if t = "auto" then some ScrollbarRender.auto
  else if t = "hover" then some ScrollbarRender.hover
  else if t = "scroll" then some ScrollbarRender.scroll
  else none

/-- Closed form of `linearScale`: the division in the non-degenerate
branch is always by a nonzero quantity, so the `Option` is always `some`. -/
theorem linearScale_eq (dmin dmax cmin cmax v : ℚ) :
    linearScale dmin dmax cmin cmax v =
      if dmin = dmax then some cmin
      else some (cmin + (cmax - cmin) / (dmax - dmin) * (v - dmin)) := by
  unfold linearScale jsDiv
  rcases eq_or_ne dmin dmax with h | h
  · simp [h]
  · have h2 : dmax - dmin ≠ 0 := sub_ne_zero.mpr (Ne.symm h)
    simp [h, h2]

/-- Evaluation of the round trip pointer -> scroll -> thumb offset: the two
interpolations share the quantity trackSize - padding - thumbSize, so the
composition collapses to `pointerPos - (paddingStart + pointerOffset)` in the
non-degenerate case and to 0 in every degenerate case. -/
theorem scrollThenThumb_eq (sizes : Sizes) (o v : ℚ) :
    (interpolateScrollPositionFromPointer v o sizes).bind
        (fun s => interpolateThumbOffsetFromScroll s sizes)
      = some (if sizes.scrollbar.paddingStart + o
            = sizes.scrollbar.size - sizes.scrollbar.paddingEnd - (sizes.thumb - o) then 0
          else if (0 : ℚ) = sizes.content - sizes.viewport then 0
          else v - (sizes.scrollbar.paddingStart + o)) := by
  obtain ⟨t, c, w, ⟨sz, ps, pe⟩⟩ := sizes
  simp only [interpolateScrollPositionFromPointer, interpolateThumbOffsetFromScroll,
    linearScale_eq, sub_zero, zero_add]
  by_cases h1 : ps + o = sz - pe - (t - o)
  · by_cases h2 : (0 : ℚ) = c - w <;>
      simp [h1, h2]
  · by_cases h2 : (0 : ℚ) = c - w
    · simp [h1, h2]
    · have hD : sz - pe - (t - o) - (ps + o) ≠ 0 := sub_ne_zero.mpr (Ne.symm h1)
      have hm : c - w ≠ 0 := fun e => h2 e.symm
      simp only [if_neg h1, if_neg h2, Option.some_bind]
      rw [Option.some.injEq]
      field_simp
      ring

/-- C1: The activity state machine backing the scroll visibility policy
starts in `hidden`; a scrollbar pointer-enter moves every one of the four
states to `interacting`; a scroll event moves `idle` and `hidden` to
`scrolling` and keeps `interacting` in `interacting`; a scroll-end event
moves `scrolling` to `idle`; a hide event moves `idle` to `hidden`; and a
scrollbar pointer-leave moves `interacting` to `idle`, never directly to
`hidden`. -/
theorem activity_machine_transitions :
    scrollMachineInitial = ActivityState.hidden
    ∧ (∀ s : ActivityState,
        scrollMachineNext s ActivityEvent.scrollbarPointerEnter = ActivityState.interacting)
    ∧ scrollMachineNext ActivityState.idle ActivityEvent.scroll = ActivityState.scrolling
    ∧ scrollMachineNext ActivityState.hidden ActivityEvent.scroll = ActivityState.scrolling
    ∧ scrollMachineNext ActivityState.interacting ActivityEvent.scroll
        = ActivityState.interacting
    ∧ scrollMachineNext ActivityState.scrolling ActivityEvent.scrollEnd = ActivityState.idle
    ∧ scrollMachineNext ActivityState.idle ActivityEvent.hide = ActivityState.hidden
    ∧ scrollMachineNext ActivityState.interacting ActivityEvent.scrollbarPointerLeave
        = ActivityState.idle
    ∧ scrollMachineNext ActivityState.interacting ActivityEvent.scrollbarPointerLeave
        ≠ ActivityState.hidden := by
  refine ⟨rfl, ?_, rfl, rfl, rfl, rfl, rfl, rfl, by decide⟩
  intro s
  cases s <;> rfl

/-- C2: On a wheel event over the scrollbar track, with
`scrollPos = currentScroll + delta` and `maxScrollPos = content - viewport`,
the default page scroll is suppressed if and only if
`0 < scrollPos < maxScrollPos`, the new `scrollPos` is written to the
native offset in every case, and a delta landing exactly on 0 or on
`maxScrollPos` does not suppress the default. -/
theorem wheel_scroll_behavior (cur delta content viewport : ℚ) :
    ((onWheelScroll cur delta content viewport).prevented = true
        ↔ (0 < cur + delta ∧ cur + delta < content - viewport))
    ∧ (onWheelScroll cur delta content viewport).newScroll = cur + delta
    ∧ ((cur + delta = 0 ∨ cur + delta = content - viewport) →
        (onWheelScroll cur delta content viewport).prevented = false) := by
  simp only [onWheelScroll, preventPageScrollOnWheel]
  refine ⟨?_, trivial, ?_⟩
  · simp
  · rintro (h | h) <;> simp [h]

/-- C2 witness: wheel delta +50 at scroll position 200 with
`maxScrollPos = 600` suppresses the default and writes 250; a delta landing
exactly on `maxScrollPos = 600` does not suppress the default. -/
theorem wheel_scroll_behavior_witness :
    (onWheelScroll 200 50 1000 400).prevented = true
    ∧ (onWheelScroll 200 50 1000 400).newScroll = 250
    ∧ (onWheelScroll 550 50 1000 400).prevented = false :=
  ⟨((wheel_scroll_behavior 200 50 1000 400).1).mpr (by norm_num),
   ((wheel_scroll_behavior 200 50 1000 400).2.1).trans (by norm_num),
   (wheel_scroll_behavior 550 50 1000 400).2.2 (Or.inr (by norm_num))⟩

/-- C3 counterexample: with content 100 and viewport 200 the derived
`maxScroll = -100` is `≤ 0`, yet `interpolateThumbOffsetFromScroll` does not
map scroll position 50 to the codomain point 0: the domain `[0, -100]` has
distinct endpoints, so the linear map applies and yields -45. -/
theorem interpolate_degenerate_counterexample :
    interpolateThumbOffsetFromScroll 50
        { thumb := 10, content := 100, viewport := 200, scrollbar := ⟨100, 0, 0⟩ }
      = some (-45)
    ∧ interpolateThumbOffsetFromScroll 50
        { thumb := 10, content := 100, viewport := 200, scrollbar := ⟨100, 0, 0⟩ }
      ≠ some 0
    ∧ ((100 : ℚ) - 200 ≤ 0) := by
  refine ⟨?_, ?_, by norm_num⟩ <;>
    · simp only [interpolateThumbOffsetFromScroll, linearScale_eq]
      norm_num

/-- C3 amended: neither interpolation ever divides by zero (they always
produce a finite value, `some _`), and when the degenerate quantity is
exactly zero - `maxScroll = content - viewport = 0` for the codomain of
`interpolateScrollPositionFromPointer`, and `maxScroll = 0` or
`trackSize - padding - thumbSize = 0` for `interpolateThumbOffsetFromScroll`
- every input maps to the single codomain point 0.  (For strictly negative
values of those quantities the maps are linear and not constantly 0.) -/
theorem interpolate_degenerate_amended (sizes : Sizes)
    (pointerPos pointerOffset scrollPos : ℚ) :
    (interpolateScrollPositionFromPointer pointerPos pointerOffset sizes).isSome = true
    ∧ (interpolateThumbOffsetFromScroll scrollPos sizes).isSome = true
    ∧ (sizes.content - sizes.viewport = 0 →
        interpolateScrollPositionFromPointer pointerPos pointerOffset sizes = some 0)
    ∧ (sizes.content - sizes.viewport = 0 →
        interpolateThumbOffsetFromScroll scrollPos sizes = some 0)
    ∧ (sizes.scrollbar.size - (sizes.scrollbar.paddingStart + sizes.scrollbar.paddingEnd)
          - sizes.thumb = 0 →
        interpolateThumbOffsetFromScroll scrollPos sizes = some 0) := by
  obtain ⟨t, c, w, ⟨sz, ps, pe⟩⟩ := sizes
  simp only [interpolateScrollPositionFromPointer, interpolateThumbOffsetFromScroll,
    linearScale_eq]
  refine ⟨?_, ?_, ?_, ?_, ?_⟩
  · split_ifs <;> simp
  · split_ifs <;> simp
  · intro h
    rw [h]
    split_ifs <;> norm_num
  · intro h
    rw [h]
    norm_num
  · intro h
    rw [h]
    split_ifs <;> norm_num

/-- C3 amended witness: with content = viewport = 400 (`maxScroll = 0`),
scroll position 123 maps to the finite value 0. -/
theorem interpolate_degenerate_amended_witness :
    interpolateThumbOffsetFromScroll 123
        { thumb := 10, content := 400, viewport := 400, scrollbar := ⟨100, 0, 0⟩ }
      = some 0 :=
  (interpolate_degenerate_amended
      { thumb := 10, content := 400, viewport := 400, scrollbar := ⟨100, 0, 0⟩ }
      0 0 123).2.2.2.1 (by norm_num)

/-- C4: for any sizes with `maxScroll = content - viewport > 0`,
`interpolateThumbOffsetFromScroll` maps scroll position 0 to thumb offset 0
and maps `maxScroll` to `trackSize - paddingStart - paddingEnd - thumbSize`:
the domain endpoints map exactly onto the codomain endpoints. -/
theorem thumb_offset_endpoints (sizes : Sizes)
    (h : 0 < sizes.content - sizes.viewport) :
    interpolateThumbOffsetFromScroll 0 sizes = some 0
    ∧ interpolateThumbOffsetFromScroll (sizes.content - sizes.viewport) sizes
      = some (sizes.scrollbar.size
          - (sizes.scrollbar.paddingStart + sizes.scrollbar.paddingEnd) - sizes.thumb) := by
  have hm : sizes.content - sizes.viewport ≠ 0 := ne_of_gt h
  constructor
  · simp only [interpolateThumbOffsetFromScroll, linearScale_eq, if_neg (ne_of_lt h)]
    norm_num
  · simp only [interpolateThumbOffsetFromScroll, linearScale_eq, if_neg (ne_of_lt h)]
    rw [Option.some.injEq]
    field_simp

/-- C4 witness: with thumb 10, content 1000, viewport 400 and an unpadded
track of size 100 (`maxScroll = 600 > 0`), scroll position 0 maps to thumb
offset 0 and scroll position 600 maps to 90 = 100 - 0 - 0 - 10. -/
theorem thumb_offset_endpoints_witness :
    interpolateThumbOffsetFromScroll 0
        { thumb := 10, content := 1000, viewport := 400, scrollbar := ⟨100, 0, 0⟩ }
      = some 0
    ∧ interpolateThumbOffsetFromScroll (1000 - 400)
        { thumb := 10, content := 1000, viewport := 400, scrollbar := ⟨100, 0, 0⟩ }
      = some (100 - (0 + 0) - 10) :=
  ⟨(thumb_offset_endpoints
      { thumb := 10, content := 1000, viewport := 400, scrollbar := ⟨100, 0, 0⟩ }
      (by norm_num)).1,
   (thumb_offset_endpoints
      { thumb := 10, content := 1000, viewport := 400, scrollbar := ⟨100, 0, 0⟩ }
      (by norm_num)).2⟩

/-- C5: for every sizes value with `content ≥ viewport ≥ 0` and every fixed
pointer offset `o`, the composed map
`p ↦ interpolateThumbOffsetFromScroll (interpolateScrollPositionFromPointer p o sizes) sizes`
is non-decreasing in the pointer position `p`. -/
theorem drag_position_monotone (sizes : Sizes) (o p q y z : ℚ)
    (hcv : sizes.viewport ≤ sizes.content) (hv : 0 ≤ sizes.viewport) (hpq : p ≤ q)
    (hy : (interpolateScrollPositionFromPointer p o sizes).bind
        (fun s => interpolateThumbOffsetFromScroll s sizes) = some y)
    (hz : (interpolateScrollPositionFromPointer q o sizes).bind
        (fun s => interpolateThumbOffsetFromScroll s sizes) = some z) :
    y ≤ z := by
  rw [scrollThenThumb_eq, Option.some.injEq] at hy hz
  subst hy hz
  split_ifs
  · exact le_refl _
  · exact le_refl _
  · exact sub_le_sub_right hpq _

/-- C5 witness: with thumb 10, content 1000, viewport 400, unpadded track of
size 100 and pointer offset 5, pointer positions 0 and 30 give composed thumb
offsets -5 and 25, and -5 ≤ 25. -/
theorem drag_position_monotone_witness :
    (interpolateScrollPositionFromPointer 0 5
        { thumb := 10, content := 1000, viewport := 400, scrollbar := ⟨100, 0, 0⟩ }).bind
      (fun s => interpolateThumbOffsetFromScroll s
        { thumb := 10, content := 1000, viewport := 400, scrollbar := ⟨100, 0, 0⟩ })
      = some (-5)
    ∧ ((-5 : ℚ) ≤ 25) :=
  ⟨by rw [scrollThenThumb_eq]; norm_num,
   drag_position_monotone
      { thumb := 10, content := 1000, viewport := 400, scrollbar := ⟨100, 0, 0⟩ }
      5 0 30 (-5) 25 (by norm_num) (by norm_num) (by norm_num)
      (by rw [scrollThenThumb_eq]; norm_num)
      (by rw [scrollThenThumb_eq]; norm_num)⟩

/-- C6 counterexample: recomputing the thumb ratio with content size 0 does
not yield ratio 0: the JavaScript division `trackPixelSize / contentSize`
divides by zero and yields a non-finite value (`none`), not `some 0`. -/
theorem ratio_zero_content_counterexample :
    recomputeThumbRatio 100 0 = none
    ∧ recomputeThumbRatio 100 0 ≠ some 0 := by
  constructor
  · simp [recomputeThumbRatio, jsDiv]
  · simp [recomputeThumbRatio, jsDiv]

/-- C6 amended: on every notification that track size or content size
changed, each axis recomputes the thumb ratio as
`trackPixelSize / contentSize`; when the content size is 0 the division is
by zero and the recomputed ratio is a non-finite value, not 0. -/
theorem ratio_recompute (track content : ℚ) :
    (content ≠ 0 → recomputeThumbRatio track content = some (track / content))
    ∧ recomputeThumbRatio track 0 = none := by
  constructor
  · intro h
    simp [recomputeThumbRatio, jsDiv, h]
  · simp [recomputeThumbRatio, jsDiv]

/-- C6 witness: a 100 pixel track over content of size 1000 recomputes the
ratio to 100 / 1000. -/
theorem ratio_recompute_witness :
    recomputeThumbRatio 100 1000 = some (100 / 1000) :=
  (ratio_recompute 100 1000).1 (by norm_num)

/-- C7 counterexample: the policy dispatch renders nothing (`null`) for the
unrecognized tag "banana"; it does not fall back to the hover renderer. -/
theorem policy_dispatch_counterexample :
    dispatchScrollbar "banana" = none
    ∧ dispatchScrollbar "banana" ≠ some ScrollbarRender.hover := by
  constructor
  · rfl
  · simp [dispatchScrollbar]

/-- C7 amended: an omitted (undefined) policy value defaults to `hover` via
the destructuring default, but a present-yet-unrecognized policy value
renders no scrollbar at all (`null`), not the hover-triggered one. -/
theorem policy_dispatch (t : String)
    (h1 : t ≠ "always") (h2 : t ≠ "auto") (h3 : t ≠ "hover") (h4 : t ≠ "scroll") :
    dispatchScrollbar t = none
    ∧ dispatchScrollbar (resolveScrollAreaType none) = some ScrollbarRender.hover := by
  constructor
  · simp [dispatchScrollbar, h1, h2, h3, h4]
  · rfl

/-- C7 witness: the unrecognized tag "bogus" renders nothing, while an
omitted policy value resolves to the hover renderer. -/
theorem policy_dispatch_witness :
    dispatchScrollbar "bogus" = none
    ∧ dispatchScrollbar (resolveScrollAreaType none) = some ScrollbarRender.hover :=
  policy_dispatch "bogus" (by simp) (by simp) (by simp) (by simp)

/-- C8 counterexample: with track size 10 and paddings 10 + 10 the padding
exceeds the track, and at ratio 1 `getThumbSizePx` returns -10, a negative
value, while `max 0 ((trackSize - padding) * ratio)` is 0. -/
theorem thumb_size_clamp_counterexample :
    getThumbSizePx 1 ⟨10, 10, 10⟩ = -10
    ∧ max 0 ((10 - (10 + 10)) * 1 : ℚ) = 0
    ∧ getThumbSizePx 1 ⟨10, 10, 10⟩ ≠ max 0 ((10 - (10 + 10)) * 1 : ℚ) := by
  refine ⟨?_, by norm_num, ?_⟩ <;> norm_num [getThumbSizePx]

/-- C8 amended: the thumb pixel size is the unclamped product
`(trackSize - padding) * ratio`; it equals
`max 0 ((trackSize - padding) * ratio)` whenever the ratio is non-negative
and the paddings do not exceed the scrollbar size, but it is negative (the
code applies no clamp) when the padding exceeds the track and the ratio is
positive. -/
theorem thumb_size_nonneg (ratio : ℚ) (sb : ScrollbarSizes)
    (hr : 0 ≤ ratio) (hp : sb.paddingStart + sb.paddingEnd ≤ sb.size) :
    getThumbSizePx ratio sb
      = max 0 ((sb.size - (sb.paddingStart + sb.paddingEnd)) * ratio) := by
  have h : 0 ≤ (sb.size - (sb.paddingStart + sb.paddingEnd)) * ratio :=
    mul_nonneg (by linarith) hr
  simp only [getThumbSizePx]
  rw [max_eq_right h]

/-- C8 witness: at ratio 1/10 on an unpadded track of size 100 the thumb
pixel size matches the clamped formula. -/
theorem thumb_size_nonneg_witness :
    getThumbSizePx (1/10) ⟨100, 0, 0⟩ = max 0 ((100 - (0 + 0)) * (1/10) : ℚ) :=
  thumb_size_nonneg (1/10) ⟨100, 0, 0⟩ (by norm_num) (by norm_num)

/-- C9 counterexample: with viewport 400, content 1000, track 100 and zero
padding, the code computes ratio = trackSize / content = 1/10, not the 2/5
the claim states, and the thumb pixel length is 10, not 40. -/
theorem end_to_end_counterexample :
    recomputeThumbRatio 100 1000 = some (1/10)
    ∧ ((1/10 : ℚ) ≠ 2/5)
    ∧ getThumbSizePx (1/10) ⟨100, 0, 0⟩ = 10
    ∧ ((10 : ℚ) ≠ 40) := by
  refine ⟨?_, by norm_num, ?_, by norm_num⟩
  · simp [recomputeThumbRatio, jsDiv]
    norm_num
  · norm_num [getThumbSizePx]

/-- C9 amended: with viewport extent 400, content extent 1000, track size
100 and zero padding, the recomputed ratio is 1/10, the thumb pixel length
is 10 (10% of the track), and moving the pointer by +30 pixels with zero
recorded pointer-offset increases the computed scroll position by
`30 / (trackSize - thumb) * maxScroll = 30/90 * 600 = 200`. -/
theorem end_to_end_values :
    recomputeThumbRatio 100 1000 = some (1/10)
    ∧ getThumbSizePx (1/10) ⟨100, 0, 0⟩ = 10
    ∧ getScrollPositionFromPointer (1/10) 0 0 ⟨1000, 400, ⟨100, 0, 0⟩⟩ = some (-100/3)
    ∧ getScrollPositionFromPointer (1/10) 0 30 ⟨1000, 400, ⟨100, 0, 0⟩⟩ = some (500/3)
    ∧ ((500/3 : ℚ) - (-100/3) = 30 / (100 - 10) * 600) := by
  refine ⟨?_, ?_, ?_, ?_, by norm_num⟩
  · simp [recomputeThumbRatio, jsDiv]
    norm_num
  · norm_num [getThumbSizePx]
  · simp only [getScrollPositionFromPointer, getThumbSizePx,
      interpolateScrollPositionFromPointer, linearScale_eq]
    norm_num
  · simp only [getScrollPositionFromPointer, getThumbSizePx,
      interpolateScrollPositionFromPointer, linearScale_eq]
    norm_num

/-- C10: a recorded drag pointer-offset of exactly 0 (pointer-down on the
thumb's leading edge, or after pointer-up resets the ref to 0) is
indistinguishable from no recorded offset: `getScrollPositionFromPointer`
then substitutes half the thumb's current pixel length as the pointer
offset, because the fallback is chosen by JavaScript truthiness.  The
substitution is observable: with ratio 1/10 on the 100/1000/400 geometry,
a pointer at position 10 whose true offset is 0 yields scroll position
100/3, not the 200/3 that honoring offset 0 would yield. -/
theorem pointer_offset_truthiness :
    onThumbPointerUpRef = 0
    ∧ (∀ (ratio p : ℚ) (sizes : SizesNoThumb),
        getScrollPositionFromPointer ratio onThumbPointerUpRef p sizes
          = interpolateScrollPositionFromPointer p
              (getThumbSizePx ratio sizes.scrollbar / 2)
              ⟨getThumbSizePx ratio sizes.scrollbar, sizes.content, sizes.viewport,
                sizes.scrollbar⟩)
    ∧ getScrollPositionFromPointer (1/10) 0 10 ⟨1000, 400, ⟨100, 0, 0⟩⟩ = some (100/3)
    ∧ interpolateScrollPositionFromPointer 10 0
        ⟨10, 1000, 400, ⟨100, 0, 0⟩⟩ = some (200/3)
    ∧ ((100/3 : ℚ) ≠ 200/3) := by
  refine ⟨rfl, ?_, ?_, ?_, by norm_num⟩
  · intro ratio p sizes
    simp [getScrollPositionFromPointer, onThumbPointerUpRef]
  · simp only [getScrollPositionFromPointer, getThumbSizePx,
      interpolateScrollPositionFromPointer, linearScale_eq]
    norm_num
  · simp only [interpolateScrollPositionFromPointer, linearScale_eq]
    norm_num
